import Mathlib

/-!
Shallow embedding of the VPA-operator (joaomo/k8s_op_vpa): the VpaManager
reconciler (internal/controller), the Deployment and StatefulSet admission
webhook handlers (internal/webhook), the metrics error classifier
(internal/metrics) and the workload providers (internal/workload).
Cluster state is passed explicitly; every cluster API call of the Go code
becomes a pure operation on that state.
-/

namespace VpaOperator

/-- A Go `map[string]string` (labels, resource-quantity maps), as an
association list. -/
abbrev StringMap := List (String × String)

/-- Lookup of a key in a label map. -/
def getLabel (lbls : StringMap) (k : String) : Option String :=
  (lbls.find? (fun kv => kv.fst == k)).map (fun kv => kv.snd)

/-- `metav1.LabelSelector` restricted to its `matchLabels` part (the repo's
managers use only `MatchLabels`). An empty `matchLabels` list is the empty
selector, which `LabelSelectorAsSelector` turns into match-everything. -/
structure LabelSelector where
  matchLabels : StringMap
deriving DecidableEq, Repr

/-- `LabelSelectorAsSelector(sel).Matches(labels.Set(objLabels))`: every
`matchLabels` pair must be present in the object's labels. -/
def selectorMatchesLabels (sel : LabelSelector) (objLabels : StringMap) : Bool :=
  sel.matchLabels.all (fun kv => getLabel objLabels kv.fst == some kv.snd)

/-- `DeploymentWebhookHandler.matchesSelector` (deployment_webhook.go):
nil selector matches everything. -/
def matchesSelector (objLabels : StringMap) (selector : Option LabelSelector) : Bool :=
  match selector with
  | none => true
  | some sel => selectorMatchesLabels sel objLabels

/-- `matchesLabelSelector` (shared webhook helper, deployment_webhook.go):
nil selector matches nothing ("Require explicit selector for webhooks"). -/
def matchesLabelSelector (objLabels : StringMap) (selector : Option LabelSelector) : Bool :=
  match selector with
  | none => false
  | some sel => selectorMatchesLabels sel objLabels

/-- `VpaManagerReconciler.namespaceMatchesSelector` (controller): nil
selector matches every namespace. -/
def namespaceMatchesSelector (nsLabels : StringMap) (selector : Option LabelSelector) : Bool :=
  match selector with
  | none => true
  | some sel => selectorMatchesLabels sel nsLabels

/-- `ContainerResourcePolicy` (api/v1/vpamanager_types.go). Go maps can be
nil, hence the `Option`. -/
structure ContainerResourcePolicy where
  containerName : String
  minAllowed : Option StringMap
  maxAllowed : Option StringMap
deriving DecidableEq, Repr

/-- `ResourcePolicy` (api/v1/vpamanager_types.go). -/
structure ResourcePolicy where
  containerPolicies : List ContainerResourcePolicy
deriving DecidableEq, Repr

/-- `VpaManagerSpec` (api/v1/vpamanager_types.go). -/
structure VpaManagerSpec where
  enabled : Bool
  updateMode : String
  namespaceSelector : Option LabelSelector
  deploymentSelector : Option LabelSelector
  statefulSetSelector : Option LabelSelector
  daemonSetSelector : Option LabelSelector
  resourcePolicy : Option ResourcePolicy
deriving DecidableEq, Repr

/-- `WorkloadReference` (api/v1/vpamanager_types.go); `ns` is the Go field
`Namespace` (a Lean keyword). -/
structure WorkloadReference where
  kind : String
  name : String
  ns : String
  uid : String
  vpaName : String
deriving DecidableEq, Repr

/-- `VpaManagerStatus` (api/v1/vpamanager_types.go); `lastReconcileTime`
modelled as an abstract timestamp. -/
structure VpaManagerStatus where
  managedVPAs : Nat
  managedDeployments : List WorkloadReference
  managedWorkloads : List WorkloadReference
  deploymentCount : Nat
  statefulSetCount : Nat
  daemonSetCount : Nat
  lastReconcileTime : Option Nat
deriving DecidableEq, Repr

/-- `VpaManager` (cluster-scoped custom object). -/
structure VpaManager where
  name : String
  spec : VpaManagerSpec
  status : VpaManagerStatus
deriving DecidableEq, Repr

/-- `metav1.OwnerReference` fields the builders set. -/
structure OwnerReference where
  apiVersion : String
  kind : String
  name : String
  uid : String
  controller : Option Bool
  blockOwnerDeletion : Option Bool
deriving DecidableEq, Repr

/-- The `targetRef` node of the emitted unstructured VPA spec. -/
structure TargetRef where
  apiVersion : String
  kind : String
  name : String
deriving DecidableEq, Repr

/-- One entry of the emitted `resourcePolicy.containerPolicies` list; the
`minAllowed`/`maxAllowed` keys are present only for non-nil Go maps. -/
structure ContainerPolicyEntry where
  containerName : String
  minAllowed : Option StringMap
  maxAllowed : Option StringMap
deriving DecidableEq, Repr

/-- The emitted unstructured VPA `spec` tree: `resourcePolicy = none` means
the key is absent from the spec map. -/
structure VPASpec where
  targetRef : TargetRef
  updateMode : String
  resourcePolicy : Option (List ContainerPolicyEntry)
deriving DecidableEq, Repr

/-- An unstructured `VerticalPodAutoscaler` object as this system shapes
it; `ns` is the metadata namespace. -/
structure VPA where
  name : String
  ns : String
  labels : StringMap
  ownerReferences : List OwnerReference
  spec : VPASpec
deriving DecidableEq, Repr

/-- A workload object (Deployment, StatefulSet or DaemonSet); its kind is
determined by which cluster list holds it, as the Go wrapper types fix
`GetKind` per provider. -/
structure Workload where
  name : String
  ns : String
  uid : String
  labels : StringMap
deriving DecidableEq, Repr

/-- A namespace object: name and labels. -/
structure Namespace where
  name : String
  labels : StringMap
deriving DecidableEq, Repr

/-- The cluster state both convergence paths read and write. -/
structure Cluster where
  namespaces : List Namespace
  deployments : List Workload
  statefulSets : List Workload
  daemonSets : List Workload
  vpaManagers : List VpaManager
  vpas : List VPA
deriving DecidableEq, Repr

/-- The `resourcePolicy` construction shared verbatim by the three VPA
builders: key absent when the manager has no resource policy or an empty
`containerPolicies` list; each emitted entry copies the non-nil
`minAllowed`/`maxAllowed` maps by value. -/
def buildContainerPolicies (rp : Option ResourcePolicy) : Option (List ContainerPolicyEntry) :=
  match rp with
  | none => none
  | some rp =>
      if rp.containerPolicies.length > 0 then
        some (rp.containerPolicies.map (fun cp =>
          { containerName := cp.containerName
            minAllowed := cp.minAllowed.map (fun m => m.map (fun kv => kv))
            maxAllowed := cp.maxAllowed.map (fun m => m.map (fun kv => kv)) }))
      else none

/-- `VpaManagerReconciler.buildVPAForWorkload` (controller): labels, owner
reference to the workload with controller flags set, targetRef, update
policy, optional resource policy. -/
def buildVPAForWorkload (vpaManager : VpaManager) (kind name ns uid vpaName : String) : VPA :=
  { name := vpaName
    ns := ns
    labels := [("app.kubernetes.io/managed-by", "vpa-operator"),
               ("app.kubernetes.io/created-by", vpaManager.name)]
    ownerReferences := [{ apiVersion := "apps/v1", kind := kind, name := name, uid := uid,
                          controller := some true, blockOwnerDeletion := some true }]
    spec := { targetRef := { apiVersion := "apps/v1", kind := kind, name := name }
              updateMode := vpaManager.spec.updateMode
              resourcePolicy := buildContainerPolicies vpaManager.spec.resourcePolicy } }

/-- `DeploymentWebhookHandler.buildVPA` (deployment_webhook.go): owner
reference without controller flags, targetRef kind fixed to Deployment. -/
def deploymentBuildVPA (vpaManager : VpaManager) (deployment : Workload) (vpaName : String) : VPA :=
  { name := vpaName
    ns := deployment.ns
    labels := [("app.kubernetes.io/managed-by", "vpa-operator"),
               ("app.kubernetes.io/created-by", vpaManager.name)]
    ownerReferences := [{ apiVersion := "apps/v1", kind := "Deployment",
                          name := deployment.name, uid := deployment.uid,
                          controller := none, blockOwnerDeletion := none }]
    spec := { targetRef := { apiVersion := "apps/v1", kind := "Deployment", name := deployment.name }
              updateMode := vpaManager.spec.updateMode
              resourcePolicy := buildContainerPolicies vpaManager.spec.resourcePolicy } }

/-- `StatefulSetWebhookHandler.buildVPA`: as the deployment builder with
targetRef kind StatefulSet. -/
def statefulSetBuildVPA (vpaManager : VpaManager) (sts : Workload) (vpaName : String) : VPA :=
  { name := vpaName
    ns := sts.ns
    labels := [("app.kubernetes.io/managed-by", "vpa-operator"),
               ("app.kubernetes.io/created-by", vpaManager.name)]
    ownerReferences := [{ apiVersion := "apps/v1", kind := "StatefulSet",
                          name := sts.name, uid := sts.uid,
                          controller := none, blockOwnerDeletion := none }]
    spec := { targetRef := { apiVersion := "apps/v1", kind := "StatefulSet", name := sts.name }
              updateMode := vpaManager.spec.updateMode
              resourcePolicy := buildContainerPolicies vpaManager.spec.resourcePolicy } }

/-- Metric-recorder calls observed during a pass, in call order
(internal/metrics). -/
inductive MetricEvent
  | reconcileRecorded (vpaManager : String) (result : String) (errorType : String)
  | webhookRecorded (operation : String) (result : String) (errorType : String)
  | vpaOpRecorded (op : String) (vpaManager : String)
  | gaugesUpdated (vpaManager : String) (managedVPAs watchedWorkloads : Nat)
deriving DecidableEq, Repr

/-- The three workload providers wired by `DefaultWorkloadConfigs`. -/
inductive WorkloadKind
  | deployment
  | statefulSet
  | daemonSet
deriving DecidableEq, Repr

/-- `Provider.Kind()` of each provider. -/
def kindName : WorkloadKind → String
  | .deployment => "Deployment"
  | .statefulSet => "StatefulSet"
  | .daemonSet => "DaemonSet"

/-- The cluster list each provider's paginated `List` walks. -/
def kindWorkloads (c : Cluster) : WorkloadKind → List Workload
  | .deployment => c.deployments
  | .statefulSet => c.statefulSets
  | .daemonSet => c.daemonSets

/-- The `Selector` field of each `WorkloadConfig` in
`DefaultWorkloadConfigs` (controller). -/
def kindSelector (spec : VpaManagerSpec) : WorkloadKind → Option LabelSelector
  | .deployment => spec.deploymentSelector
  | .statefulSet => spec.statefulSetSelector
  | .daemonSet => spec.daemonSetSelector

/-- `DefaultWorkloadConfigs` order: Deployment, StatefulSet, DaemonSet. -/
def defaultWorkloadConfigs : List WorkloadKind :=
  [.deployment, .statefulSet, .daemonSet]

/-- `Provider.List` (internal/workload): namespace-scoped listing, with
server-side label filtering when the selector is non-nil (pagination folds
away in the state model). -/
def providerList (workloads : List Workload) (ns : String)
    (selector : Option LabelSelector) : List Workload :=
  (workloads.filter (fun w => w.ns == ns)).filter (fun w =>
    match selector with
    | none => true
    | some sel => selectorMatchesLabels sel w.labels)

/-- `VpaManagerReconciler.getMatchingNamespaces`: nil selector lists all
namespaces, otherwise a label-filtered list. -/
def getMatchingNamespaces (namespaces : List Namespace)
    (selector : Option LabelSelector) : List Namespace :=
  match selector with
  | none => namespaces
  | some sel => namespaces.filter (fun n => selectorMatchesLabels sel n.labels)

/-- `Get` of a VPA by namespace and name. -/
def findVPA (vpas : List VPA) (ns vpaName : String) : Option VPA :=
  vpas.find? (fun v => v.ns == ns && v.name == vpaName)

/-- Result of `ensureVPAForWorkload`: updated VPA set plus the `created`
flag the reconciler counts. -/
structure EnsureResult where
  vpas : List VPA
  created : Bool
deriving Repr

/-- `VpaManagerReconciler.ensureVPAForWorkload`: build the desired VPA;
not-found on read means create, otherwise overwrite `spec` and update. -/
def ensureVPAForWorkload (vpas : List VPA) (vpaManager : VpaManager)
    (kind name ns uid vpaName : String) : EnsureResult :=
  let vpa := buildVPAForWorkload vpaManager kind name ns uid vpaName
  match findVPA vpas ns vpaName with
  | none => { vpas := vpas ++ [vpa], created := true }
  | some _ =>
      { vpas := vpas.map (fun v =>
          if v.ns == ns && v.name == vpaName then { v with spec := vpa.spec } else v)
        created := false }

/-- Outcome of one `r.Delete` call during the orphan sweep. -/
inductive DeleteOutcome
  | ok
  | notFound
  | failed (msg : String)
deriving DecidableEq, Repr

/-- The `namespace/name` key `cleanupOrphanedVPAs` builds with
`fmt.Sprintf`. -/
def vpaKey (v : VPA) : String := v.ns ++ "/" ++ v.name

/-- The key of a tracked workload reference in the current-VPA set. -/
def refKey (wl : WorkloadReference) : String := wl.ns ++ "/" ++ wl.vpaName

/-- Result of the orphan sweep loop: deletions counted, the returned
error, the keys passed to `Delete` (in order) and the keys whose delete
succeeded and removed the object from the cluster. -/
structure CleanupResult where
  deleted : Nat
  error : Option String
  attempted : List String
  removedKeys : List String
deriving DecidableEq, Repr

/-- The loop body of `cleanupOrphanedVPAs`: candidates present in
`currentKeys` are skipped; a delete failing with anything but not-found
returns at once with the count so far; not-found is benign and still
counted. -/
def cleanupSweep (currentKeys : List String) (del : VPA → DeleteOutcome) :
    List VPA → CleanupResult
  | [] => { deleted := 0, error := none, attempted := [], removedKeys := [] }
  | v :: rest =>
      if currentKeys.contains (vpaKey v) then
        cleanupSweep currentKeys del rest
      else
        match del v with
        | .failed msg =>
            { deleted := 0, error := some msg, attempted := [vpaKey v], removedKeys := [] }
        | .ok =>
            let r := cleanupSweep currentKeys del rest
            { deleted := r.deleted + 1, error := r.error,
              attempted := vpaKey v :: r.attempted,
              removedKeys := vpaKey v :: r.removedKeys }
        | .notFound =>
            let r := cleanupSweep currentKeys del rest
            { deleted := r.deleted + 1, error := r.error,
              attempted := vpaKey v :: r.attempted,
              removedKeys := r.removedKeys }

/-- Does a VPA carry both ownership labels (`managed-by=vpa-operator` and
`created-by=<manager>`), i.e. match the sweep's label-scoped `List`? -/
def hasManagedLabels (mgrName : String) (v : VPA) : Bool :=
  getLabel v.labels "app.kubernetes.io/managed-by" == some "vpa-operator" &&
  getLabel v.labels "app.kubernetes.io/created-by" == some mgrName

/-- `VpaManagerReconciler.cleanupOrphanedVPAs`: list the VPAs labelled for
this manager, delete those whose key is absent from the current set, and
return the sweep result together with the surviving cluster VPA list. -/
def cleanupOrphanedVPAs (mgrName : String) (currentWorkloads : List WorkloadReference)
    (vpas : List VPA) (del : VPA → DeleteOutcome) : CleanupResult × List VPA :=
  let currentKeys := currentWorkloads.map refKey
  let managed := vpas.filter (hasManagedLabels mgrName)
  let r := cleanupSweep currentKeys del managed
  (r, vpas.filter (fun v => !(r.removedKeys.contains (vpaKey v))))

/-- Accumulator of the reconciler's enumeration loop: cluster VPAs being
ensured, metric events, the `managedWorkloads` list and
`watchedWorkloadsCount`. -/
structure SweepState where
  vpas : List VPA
  events : List MetricEvent
  managedWorkloads : List WorkloadReference
  watched : Nat
deriving Repr

/-- One iteration of the reconciler's inner workload loop: ensure the VPA,
record a `create` operation when one was created, and append the workload
reference. -/
def processWorkload (vpaManager : VpaManager) (kind : String)
    (st : SweepState) (wl : Workload) : SweepState :=
  let vpaName := wl.name ++ "-vpa"
  let er := ensureVPAForWorkload st.vpas vpaManager kind wl.name wl.ns wl.uid vpaName
  { vpas := er.vpas
    events := st.events ++
      (if er.created then [MetricEvent.vpaOpRecorded "create" vpaManager.name] else [])
    managedWorkloads := st.managedWorkloads ++
      [{ kind := kind, name := wl.name, ns := wl.ns, uid := wl.uid, vpaName := vpaName }]
    watched := st.watched }

/-- One `(namespace, WorkloadConfig)` iteration of the reconciler: kinds
with a nil selector are skipped, otherwise the provider's listing is
walked with `processWorkload`. -/
def processKind (c : Cluster) (vpaManager : VpaManager) (ns : Namespace)
    (st : SweepState) (k : WorkloadKind) : SweepState :=
  match kindSelector vpaManager.spec k with
  | none => st
  | some sel =>
      let workloads := providerList (kindWorkloads c k) ns.name (some sel)
      let st := { st with watched := st.watched + workloads.length }
      workloads.foldl (processWorkload vpaManager (kindName k)) st

/-- The reconciler's enumeration phase: for each matching namespace and
each workload config (nil-selector kinds skipped), ensure a VPA per listed
workload, starting from the cluster's VPA set and empty accumulators. -/
def reconcileEnumerate (c : Cluster) (vpaManager : VpaManager) : SweepState :=
  (getMatchingNamespaces c.namespaces vpaManager.spec.namespaceSelector).foldl
    (fun st ns => defaultWorkloadConfigs.foldl (processKind c vpaManager ns) st)
    { vpas := c.vpas, events := [], managedWorkloads := [], watched := 0 }

/-- Result of one `Reconcile` pass. -/
structure ReconcileResult where
  cluster : Cluster
  events : List MetricEvent
  requeueAfterMinutes : Option Nat
  error : Option String
deriving Repr

/-- `VpaManagerReconciler.Reconcile`: load the manager (absent means
no-op success), short-circuit when disabled, enumerate matching
namespaces and workload kinds, ensure VPAs, sweep orphans, patch the
status sub-resource by merge-from-original and record metrics.  All API
reads and writes succeed in this state model, so the error paths of the
Go code that depend on injected API failures do not arise. -/
def reconcile (c : Cluster) (reqName : String) (now : Nat) : ReconcileResult :=
  match c.vpaManagers.find? (fun m => m.name == reqName) with
  | none => { cluster := c, events := [], requeueAfterMinutes := none, error := none }
  | some vpaManager =>
      if !vpaManager.spec.enabled then
        { cluster := c
          events := [MetricEvent.reconcileRecorded vpaManager.name "success" ""]
          requeueAfterMinutes := none, error := none }
      else
        let st := reconcileEnumerate c vpaManager
        let cleanup := cleanupOrphanedVPAs vpaManager.name st.managedWorkloads st.vpas
          (fun _ => DeleteOutcome.ok)
        let deleteEvents := List.replicate cleanup.fst.deleted
          (MetricEvent.vpaOpRecorded "delete" vpaManager.name)
        let newStatus := { vpaManager.status with
          managedVPAs := st.managedWorkloads.length
          managedDeployments := st.managedWorkloads
          managedWorkloads := st.managedWorkloads
          lastReconcileTime := some now }
        let managers := c.vpaManagers.map (fun m =>
          if m.name == vpaManager.name then { m with status := newStatus } else m)
        { cluster := { c with vpas := cleanup.snd, vpaManagers := managers }
          events := st.events ++ deleteEvents ++
            [MetricEvent.gaugesUpdated vpaManager.name st.managedWorkloads.length st.watched,
             MetricEvent.reconcileRecorded vpaManager.name "success" ""]
          requeueAfterMinutes := some 5
          error := none }

/-- `Get` of a namespace object by name. -/
def findNamespace (namespaces : List Namespace) (name : String) : Option Namespace :=
  namespaces.find? (fun n => n.name == name)

/-- `DeploymentWebhookHandler.findMatchingVpaManager`: list all managers,
get the object's namespace (absent means an API not-found error), then
return the first enabled manager whose namespace selector and deployment
selector both pass `matchesSelector` (nil selector passes). -/
def deploymentFindMatchingVpaManager (c : Cluster) (deployment : Workload) :
    Except String (Option VpaManager) :=
  match findNamespace c.namespaces deployment.ns with
  | none => .error ("namespaces " ++ deployment.ns ++ " not found")
  | some nsObj =>
      .ok (c.vpaManagers.find? (fun vm =>
        vm.spec.enabled &&
        matchesSelector nsObj.labels vm.spec.namespaceSelector &&
        matchesSelector deployment.labels vm.spec.deploymentSelector))

/-- `StatefulSetWebhookHandler.findMatchingVpaManager`: as the deployment
variant but both checks go through `matchesLabelSelector`, for which a nil
selector never passes. -/
def statefulSetFindMatchingVpaManager (c : Cluster) (sts : Workload) :
    Except String (Option VpaManager) :=
  match findNamespace c.namespaces sts.ns with
  | none => .error ("namespaces " ++ sts.ns ++ " not found")
  | some nsObj =>
      .ok (c.vpaManagers.find? (fun vm =>
        vm.spec.enabled &&
        matchesLabelSelector nsObj.labels vm.spec.namespaceSelector &&
        matchesLabelSelector sts.labels vm.spec.statefulSetSelector))

/-- Webhook `createVPA` (both handlers): a VPA already present at
`(namespace, vpaName)` is left alone, otherwise the built VPA is
created. -/
def webhookCreateVPA (vpas : List VPA) (vpa : VPA) (ns vpaName : String) : List VPA :=
  match findVPA vpas ns vpaName with
  | some _ => vpas
  | none => vpas ++ [vpa]

/-- Webhook `updateVPA` (both handlers): not-found on read falls back to
`createVPA`, otherwise the existing object's `spec` is overwritten. -/
def webhookUpdateVPA (vpas : List VPA) (newVPA : VPA) (ns vpaName : String) : List VPA :=
  match findVPA vpas ns vpaName with
  | none => webhookCreateVPA vpas newVPA ns vpaName
  | some _ =>
      vpas.map (fun v =>
        if v.ns == ns && v.name == vpaName then { v with spec := newVPA.spec } else v)

/-- Webhook `deleteVPA` (both handlers): delete by namespace and name;
not-found is benign. -/
def webhookDeleteVPA (vpas : List VPA) (ns vpaName : String) : List VPA :=
  vpas.filter (fun v => !(v.ns == ns && v.name == vpaName))

/-- Result of one per-operation webhook handler: the VPA set after its
side effects, the VPA-operation metrics it recorded, and the error it
returned to `Handle`. -/
structure HandlerResult where
  vpas : List VPA
  events : List MetricEvent
  error : Option String
deriving Repr

/-- `DeploymentWebhookHandler.handleCreate`: no matching manager means no
action; otherwise create `<name>-vpa` idempotently and record `create`. -/
def deploymentHandleCreate (c : Cluster) (deployment : Workload) : HandlerResult :=
  match deploymentFindMatchingVpaManager c deployment with
  | .error e => { vpas := c.vpas, events := [], error := some e }
  | .ok none => { vpas := c.vpas, events := [], error := none }
  | .ok (some vpaManager) =>
      let vpaName := deployment.name ++ "-vpa"
      { vpas := webhookCreateVPA c.vpas (deploymentBuildVPA vpaManager deployment vpaName)
          deployment.ns vpaName
        events := [MetricEvent.vpaOpRecorded "create" vpaManager.name]
        error := none }

/-- `DeploymentWebhookHandler.handleUpdate`: the transition matrix on
`(oldMatch, newMatch)`; the new object's match is computed first. -/
def deploymentHandleUpdate (c : Cluster) (oldDeployment newDeployment : Workload) :
    HandlerResult :=
  match deploymentFindMatchingVpaManager c newDeployment with
  | .error e => { vpas := c.vpas, events := [], error := some e }
  | .ok newVpaManager =>
      match deploymentFindMatchingVpaManager c oldDeployment with
      | .error e => { vpas := c.vpas, events := [], error := some e }
      | .ok oldVpaManager =>
          let vpaName := newDeployment.name ++ "-vpa"
          match oldVpaManager, newVpaManager with
          | none, some m =>
              { vpas := webhookCreateVPA c.vpas (deploymentBuildVPA m newDeployment vpaName)
                  newDeployment.ns vpaName
                events := [MetricEvent.vpaOpRecorded "create" m.name], error := none }
          | some m, none =>
              { vpas := webhookDeleteVPA c.vpas newDeployment.ns vpaName
                events := [MetricEvent.vpaOpRecorded "delete" m.name], error := none }
          | some _, some m =>
              { vpas := webhookUpdateVPA c.vpas (deploymentBuildVPA m newDeployment vpaName)
                  newDeployment.ns vpaName
                events := [], error := none }
          | none, none => { vpas := c.vpas, events := [], error := none }

/-- `DeploymentWebhookHandler.handleDelete`: only a workload matched by an
enabled manager has its VPA deleted; `delete` is then recorded. -/
def deploymentHandleDelete (c : Cluster) (deployment : Workload) : HandlerResult :=
  match deploymentFindMatchingVpaManager c deployment with
  | .error e => { vpas := c.vpas, events := [], error := some e }
  | .ok none => { vpas := c.vpas, events := [], error := none }
  | .ok (some vpaManager) =>
      { vpas := webhookDeleteVPA c.vpas deployment.ns (deployment.name ++ "-vpa")
        events := [MetricEvent.vpaOpRecorded "delete" vpaManager.name]
        error := none }

/-- `StatefulSetWebhookHandler.handleCreate`. -/
def statefulSetHandleCreate (c : Cluster) (sts : Workload) : HandlerResult :=
  match statefulSetFindMatchingVpaManager c sts with
  | .error e => { vpas := c.vpas, events := [], error := some e }
  | .ok none => { vpas := c.vpas, events := [], error := none }
  | .ok (some vpaManager) =>
      let vpaName := sts.name ++ "-vpa"
      { vpas := webhookCreateVPA c.vpas (statefulSetBuildVPA vpaManager sts vpaName)
          sts.ns vpaName
        events := [MetricEvent.vpaOpRecorded "create" vpaManager.name]
        error := none }

/-- `StatefulSetWebhookHandler.handleUpdate`: the same transition matrix
as the deployment handler. -/
def statefulSetHandleUpdate (c : Cluster) (oldSts newSts : Workload) : HandlerResult :=
  match statefulSetFindMatchingVpaManager c newSts with
  | .error e => { vpas := c.vpas, events := [], error := some e }
  | .ok newVpaManager =>
      match statefulSetFindMatchingVpaManager c oldSts with
      | .error e => { vpas := c.vpas, events := [], error := some e }
      | .ok oldVpaManager =>
          let vpaName := newSts.name ++ "-vpa"
          match oldVpaManager, newVpaManager with
          | none, some m =>
              { vpas := webhookCreateVPA c.vpas (statefulSetBuildVPA m newSts vpaName)
                  newSts.ns vpaName
                events := [MetricEvent.vpaOpRecorded "create" m.name], error := none }
          | some m, none =>
              { vpas := webhookDeleteVPA c.vpas newSts.ns vpaName
                events := [MetricEvent.vpaOpRecorded "delete" m.name], error := none }
          | some _, some m =>
              { vpas := webhookUpdateVPA c.vpas (statefulSetBuildVPA m newSts vpaName)
                  newSts.ns vpaName
                events := [], error := none }
          | none, none => { vpas := c.vpas, events := [], error := none }

/-- `StatefulSetWebhookHandler.handleDelete`. -/
def statefulSetHandleDelete (c : Cluster) (sts : Workload) : HandlerResult :=
  match statefulSetFindMatchingVpaManager c sts with
  | .error e => { vpas := c.vpas, events := [], error := some e }
  | .ok none => { vpas := c.vpas, events := [], error := none }
  | .ok (some vpaManager) =>
      { vpas := webhookDeleteVPA c.vpas sts.ns (sts.name ++ "-vpa")
        events := [MetricEvent.vpaOpRecorded "delete" vpaManager.name]
        error := none }

/-- `admissionv1.Operation` values the `Handle` switch looks at; `other`
stands for any operation the switch ignores (for instance CONNECT). -/
inductive AdmissionOperation
  | create
  | update
  | delete
  | other
deriving DecidableEq, Repr

/-- The operation string `Handle` passes to `RecordWebhookRequest`. -/
def operationString : AdmissionOperation → String
  | .create => "CREATE"
  | .update => "UPDATE"
  | .delete => "DELETE"
  | .other => "OTHER"

/-- An admission request with its decoded object images: `object` is
`req.Object` (CREATE/UPDATE), `oldObject` is `req.OldObject`
(UPDATE/DELETE). -/
structure AdmissionRequest where
  operation : AdmissionOperation
  object : Workload
  oldObject : Workload
deriving Repr

/-- `admission.Response` as the handlers shape it. -/
structure AdmissionResponse where
  allowed : Bool
  message : String
deriving DecidableEq, Repr

/-- `containsAny` (internal/metrics): manual substring scan, requiring a
non-empty needle. -/
def charsLeadMatch : List Char → List Char → Bool
  | [], _ => true
  | _ :: _, [] => false
  | a :: as, b :: bs => a == b && charsLeadMatch as bs

/-- Does the needle occur anywhere in the haystack? -/
def charsContain (sub : List Char) : List Char → Bool
  | [] => sub.isEmpty
  | b :: bs => charsLeadMatch sub (b :: bs) || charsContain sub bs

/-- `containsAny(s, subs...)` of internal/metrics. -/
def containsAny (s : String) (subs : List String) : Bool :=
  subs.any (fun sub =>
    sub.length > 0 && s.length >= sub.length && charsContain sub.toList s.toList)

/-- `ClassifyError` (internal/metrics): substring-based error
classification. -/
def classifyErrorString (e : String) : String :=
  if containsAny e ["not found", "NotFound"] then "not_found"
  else if containsAny e ["conflict", "Conflict", "already exists"] then "conflict"
  else if containsAny e ["validation", "invalid", "Invalid"] then "validation"
  else if containsAny e ["connection refused", "timeout", "context deadline"] then "api_server"
  else "unknown"

/-- `classifyResult` (internal/metrics): nil error is a success with empty
error type. -/
def classifyResult (err : Option String) : String × String :=
  match err with
  | none => ("success", "")
  | some e => ("error", classifyErrorString e)

/-- Result of a full `Handle` call: the admission response, the VPA set
after side effects and the metric events in recording order. -/
structure HandleResult where
  response : AdmissionResponse
  vpas : List VPA
  events : List MetricEvent
deriving Repr

/-- The operation switch inside `DeploymentWebhookHandler.Handle`; an
unrecognised operation leaves the handler error nil. -/
def deploymentDispatch (c : Cluster) (req : AdmissionRequest) : HandlerResult :=
  match req.operation with
  | .create => deploymentHandleCreate c req.object
  | .update => deploymentHandleUpdate c req.oldObject req.object
  | .delete => deploymentHandleDelete c req.oldObject
  | .other => { vpas := c.vpas, events := [], error := none }

/-- `DeploymentWebhookHandler.Handle`: run the per-operation handler,
record the webhook request with the classified result (the deferred
`RecordWebhookRequest`), log any error, and always return allowed. -/
def deploymentHandle (c : Cluster) (req : AdmissionRequest) : HandleResult :=
  let hr := deploymentDispatch c req
  let rc := classifyResult hr.error
  { response := { allowed := true, message := "deployment processed" }
    vpas := hr.vpas
    events := hr.events ++
      [MetricEvent.webhookRecorded (operationString req.operation) rc.fst rc.snd] }

/-- The operation switch inside `StatefulSetWebhookHandler.Handle`. -/
def statefulSetDispatch (c : Cluster) (req : AdmissionRequest) : HandlerResult :=
  match req.operation with
  | .create => statefulSetHandleCreate c req.object
  | .update => statefulSetHandleUpdate c req.oldObject req.object
  | .delete => statefulSetHandleDelete c req.oldObject
  | .other => { vpas := c.vpas, events := [], error := none }

/-- `StatefulSetWebhookHandler.Handle`: same shape as the deployment
handler. -/
def statefulSetHandle (c : Cluster) (req : AdmissionRequest) : HandleResult :=
  let hr := statefulSetDispatch c req
  let rc := classifyResult hr.error
  { response := { allowed := true, message := "statefulset processed" }
    vpas := hr.vpas
    events := hr.events ++
      [MetricEvent.webhookRecorded (operationString req.operation) rc.fst rc.snd] }

/-- The workload references the reconciler's enumeration pass produces for
a manager: for every matching namespace and every kind with a non-nil
selector, every workload listed by the provider, in loop order. -/
def matchedWorkloadRefs (c : Cluster) (m : VpaManager) : List WorkloadReference :=
  (getMatchingNamespaces c.namespaces m.spec.namespaceSelector).flatMap (fun ns =>
    defaultWorkloadConfigs.flatMap (fun k =>
      match kindSelector m.spec k with
      | none => []
      | some sel =>
          (providerList (kindWorkloads c k) ns.name (some sel)).map (fun w =>
            { kind := kindName k, name := w.name, ns := w.ns, uid := w.uid,
              vpaName := w.name ++ "-vpa" })))

/-- A property preserved by every step of a fold holds of the fold. -/
theorem helperFoldlPreserve {α β : Type} (Q : α → Prop) (f : α → β → α) :
    ∀ (l : List β) (init : α),
      (∀ st a, a ∈ l → Q st → Q (f st a)) → Q init → Q (l.foldl f init) := by
  intro l
  induction l with
  | nil => intro init _ hQ; simpa using hQ
  | cons b bs ih =>
      intro init h hQ
      simp only [List.foldl_cons]
      exact ih (f init b) (fun st a ha => h st a (List.mem_cons_of_mem _ ha))
        (h init b (List.mem_cons_self _ _) hQ)

/-- With all deletes succeeding, the sweep removes the key of every
candidate that is outside the current set. -/
theorem helperSweepRemovesOrphan (curKeys : List String) :
    ∀ (items : List VPA) (w : VPA), w ∈ items →
      curKeys.contains (vpaKey w) = false →
      vpaKey w ∈ (cleanupSweep curKeys (fun _ => DeleteOutcome.ok) items).removedKeys := by
  intro items
  induction items with
  | nil => intro w hw; simp at hw
  | cons v rest ih =>
      intro w hw hcur
      have hcur2 : vpaKey w ∉ curKeys := by simpa using hcur
      rcases List.mem_cons.mp hw with hEq | hMem
      · subst hEq
        simp [cleanupSweep, hcur2]
      · by_cases hv : vpaKey v ∈ curKeys
        · simpa [cleanupSweep, hv] using ih w hMem hcur
        · simp [cleanupSweep, hv]
          exact Or.inr (ih w hMem hcur)

/-- Every key the sweep removes is the key of some candidate. -/
theorem helperSweepRemovedSubset (curKeys : List String) (del : VPA → DeleteOutcome) :
    ∀ (items : List VPA) (k : String),
      k ∈ (cleanupSweep curKeys del items).removedKeys →
      ∃ w ∈ items, vpaKey w = k := by
  intro items
  induction items with
  | nil => intro k hk; simp [cleanupSweep] at hk
  | cons v rest ih =>
      intro k hk
      by_cases hv : vpaKey v ∈ curKeys
      · simp only [cleanupSweep] at hk
        rw [if_pos (by simpa using hv)] at hk
        obtain ⟨w, hw, hwk⟩ := ih k hk
        exact ⟨w, List.mem_cons_of_mem _ hw, hwk⟩
      · cases hdel : del v with
        | failed msg => simp [cleanupSweep, hv, hdel] at hk
        | ok =>
            simp [cleanupSweep, hv, hdel] at hk
            rcases hk with hEq | hMem
            · exact ⟨v, List.mem_cons_self _ _, hEq.symm⟩
            · obtain ⟨w, hw, hwk⟩ := ih k hMem
              exact ⟨w, List.mem_cons_of_mem _ hw, hwk⟩
        | notFound =>
            simp [cleanupSweep, hv, hdel] at hk
            obtain ⟨w, hw, hwk⟩ := ih k hk
            exact ⟨w, List.mem_cons_of_mem _ hw, hwk⟩

/-- A sweep whose deletes all report not-found returns no error and
removes nothing. -/
theorem helperSweepNotFound (curKeys : List String) :
    ∀ (items : List VPA),
      (cleanupSweep curKeys (fun _ => DeleteOutcome.notFound) items).error = none ∧
      (cleanupSweep curKeys (fun _ => DeleteOutcome.notFound) items).removedKeys = [] := by
  intro items
  induction items with
  | nil => simp [cleanupSweep]
  | cons v rest ih =>
      by_cases hv : vpaKey v ∈ curKeys
      · simpa [cleanupSweep, hv] using ih
      · simpa [cleanupSweep, hv] using ih

/-- C6. A disabled manager's reconcile is a recorded success that changes
nothing: no VPA create, update or delete, the cluster (including every
manager status) untouched, no error and no requeue interval. -/
theorem reconcile_disabled_manager_is_noop (c : Cluster) (reqName : String) (now : Nat)
    (M : VpaManager)
    (h1 : c.vpaManagers.find? (fun m => m.name == reqName) = some M)
    (h2 : M.spec.enabled = false) :
    reconcile c reqName now =
      { cluster := c
        events := [MetricEvent.reconcileRecorded M.name "success" ""]
        requeueAfterMinutes := none
        error := none } := by
  unfold reconcile
  rw [h1]
  simp [h2]

def c6Manager : VpaManager :=
  { name := "mgr-off"
    spec := { enabled := false, updateMode := "Auto"
              namespaceSelector := none
              deploymentSelector := some { matchLabels := [] }
              statefulSetSelector := none, daemonSetSelector := none
              resourcePolicy := none }
    status := { managedVPAs := 3, managedDeployments := [], managedWorkloads := []
                deploymentCount := 3, statefulSetCount := 0, daemonSetCount := 0
                lastReconcileTime := none } }

def c6Cluster : Cluster :=
  { namespaces := [{ name := "ns1", labels := [] }]
    deployments := [{ name := "app1", ns := "ns1", uid := "u1", labels := [] }]
    statefulSets := [], daemonSets := []
    vpaManagers := [c6Manager]
    vpas := [{ name := "app1-vpa", ns := "ns1"
               labels := [("app.kubernetes.io/managed-by", "vpa-operator"),
                          ("app.kubernetes.io/created-by", "mgr-off")]
               ownerReferences := []
               spec := { targetRef := { apiVersion := "apps/v1", kind := "Deployment",
                                        name := "app1" }
                         updateMode := "Auto", resourcePolicy := none } }] }

/-- Witness for C6 at a concrete disabled manager with a matching workload
and a pre-existing VPA. -/
theorem reconcile_disabled_manager_is_noop_witness :
    reconcile c6Cluster "mgr-off" 7 =
      { cluster := c6Cluster
        events := [MetricEvent.reconcileRecorded "mgr-off" "success" ""]
        requeueAfterMinutes := none
        error := none } :=
  reconcile_disabled_manager_is_noop c6Cluster "mgr-off" 7 c6Manager rfl rfl

/-- C7. All three VPA builders omit the `resourcePolicy` key entirely when
the manager has no resource policy or an empty `containerPolicies` list,
and otherwise emit one entry per container policy carrying the container
name and the (value-copied) `minAllowed`/`maxAllowed` maps, never an empty
list. -/
theorem builders_resource_policy_shape (M : VpaManager)
    (kind name ns uid vpaName : String) (d sts : Workload) :
    ((M.spec.resourcePolicy = none ∨
        ∃ rp, M.spec.resourcePolicy = some rp ∧ rp.containerPolicies = []) →
      (buildVPAForWorkload M kind name ns uid vpaName).spec.resourcePolicy = none ∧
      (deploymentBuildVPA M d vpaName).spec.resourcePolicy = none ∧
      (statefulSetBuildVPA M sts vpaName).spec.resourcePolicy = none) ∧
    (∀ rp, M.spec.resourcePolicy = some rp → rp.containerPolicies ≠ [] →
      ((buildVPAForWorkload M kind name ns uid vpaName).spec.resourcePolicy =
          some (rp.containerPolicies.map (fun cp =>
            { containerName := cp.containerName, minAllowed := cp.minAllowed,
              maxAllowed := cp.maxAllowed })) ∧
        (deploymentBuildVPA M d vpaName).spec.resourcePolicy =
          some (rp.containerPolicies.map (fun cp =>
            { containerName := cp.containerName, minAllowed := cp.minAllowed,
              maxAllowed := cp.maxAllowed })) ∧
        (statefulSetBuildVPA M sts vpaName).spec.resourcePolicy =
          some (rp.containerPolicies.map (fun cp =>
            { containerName := cp.containerName, minAllowed := cp.minAllowed,
              maxAllowed := cp.maxAllowed }))) ∧
      rp.containerPolicies.map (fun cp =>
        ({ containerName := cp.containerName, minAllowed := cp.minAllowed,
           maxAllowed := cp.maxAllowed } : ContainerPolicyEntry)) ≠ []) := by
  constructor
  · rintro (h | ⟨rp, hrp, hempty⟩) <;>
      simp [buildVPAForWorkload, deploymentBuildVPA, statefulSetBuildVPA,
        buildContainerPolicies, *]
  · intro rp hrp hne
    have hlen : rp.containerPolicies.length > 0 := List.length_pos.mpr hne
    refine ⟨⟨?_, ?_, ?_⟩, by simp [hne]⟩ <;>
      simp [buildVPAForWorkload, deploymentBuildVPA, statefulSetBuildVPA,
        buildContainerPolicies, hrp, hlen]

def c7Manager : VpaManager :=
  { name := "mgr-rp"
    spec := { enabled := true, updateMode := "Initial"
              namespaceSelector := none, deploymentSelector := none
              statefulSetSelector := none, daemonSetSelector := none
              resourcePolicy := some { containerPolicies :=
                [{ containerName := "*",
                   minAllowed := some [("cpu", "100m"), ("memory", "100Mi")],
                   maxAllowed := some [("cpu", "1"), ("memory", "1Gi")] }] } }
    status := { managedVPAs := 0, managedDeployments := [], managedWorkloads := []
                deploymentCount := 0, statefulSetCount := 0, daemonSetCount := 0
                lastReconcileTime := none } }

/-- Witness for C7 at a concrete manager with one container policy. -/
theorem builders_resource_policy_shape_witness :
    (buildVPAForWorkload c7Manager "Deployment" "app3" "ns1" "u3" "app3-vpa").spec.resourcePolicy =
      some [{ containerName := "*",
              minAllowed := some [("cpu", "100m"), ("memory", "100Mi")],
              maxAllowed := some [("cpu", "1"), ("memory", "1Gi")] }] :=
  (((builders_resource_policy_shape c7Manager "Deployment" "app3" "ns1" "u3" "app3-vpa"
      { name := "app3", ns := "ns1", uid := "u3", labels := [] }
      { name := "app3", ns := "ns1", uid := "u3", labels := [] }).2
    { containerPolicies :=
        [{ containerName := "*",
           minAllowed := some [("cpu", "100m"), ("memory", "100Mi")],
           maxAllowed := some [("cpu", "1"), ("memory", "1Gi")] }] }
    rfl (by decide)).1).1

/-- C8. Every VPA built by the reconciler's builder or either webhook
builder for a workload under a manager is named `<workload>-vpa` in the
workload's namespace, carries the `managed-by=vpa-operator` and
`created-by=<manager>` labels, and targets the workload's kind and
name. -/
theorem built_vpa_identity (M : VpaManager) (kind name ns uid : String) (d sts : Workload) :
    ((buildVPAForWorkload M kind name ns uid (name ++ "-vpa")).name = name ++ "-vpa" ∧
     (buildVPAForWorkload M kind name ns uid (name ++ "-vpa")).ns = ns ∧
     getLabel (buildVPAForWorkload M kind name ns uid (name ++ "-vpa")).labels
       "app.kubernetes.io/managed-by" = some "vpa-operator" ∧
     getLabel (buildVPAForWorkload M kind name ns uid (name ++ "-vpa")).labels
       "app.kubernetes.io/created-by" = some M.name ∧
     (buildVPAForWorkload M kind name ns uid (name ++ "-vpa")).spec.targetRef.kind = kind ∧
     (buildVPAForWorkload M kind name ns uid (name ++ "-vpa")).spec.targetRef.name = name) ∧
    ((deploymentBuildVPA M d (d.name ++ "-vpa")).name = d.name ++ "-vpa" ∧
     (deploymentBuildVPA M d (d.name ++ "-vpa")).ns = d.ns ∧
     getLabel (deploymentBuildVPA M d (d.name ++ "-vpa")).labels
       "app.kubernetes.io/managed-by" = some "vpa-operator" ∧
     getLabel (deploymentBuildVPA M d (d.name ++ "-vpa")).labels
       "app.kubernetes.io/created-by" = some M.name ∧
     (deploymentBuildVPA M d (d.name ++ "-vpa")).spec.targetRef.kind = "Deployment" ∧
     (deploymentBuildVPA M d (d.name ++ "-vpa")).spec.targetRef.name = d.name) ∧
    ((statefulSetBuildVPA M sts (sts.name ++ "-vpa")).name = sts.name ++ "-vpa" ∧
     (statefulSetBuildVPA M sts (sts.name ++ "-vpa")).ns = sts.ns ∧
     getLabel (statefulSetBuildVPA M sts (sts.name ++ "-vpa")).labels
       "app.kubernetes.io/managed-by" = some "vpa-operator" ∧
     getLabel (statefulSetBuildVPA M sts (sts.name ++ "-vpa")).labels
       "app.kubernetes.io/created-by" = some M.name ∧
     (statefulSetBuildVPA M sts (sts.name ++ "-vpa")).spec.targetRef.kind = "StatefulSet" ∧
     (statefulSetBuildVPA M sts (sts.name ++ "-vpa")).spec.targetRef.name = sts.name) :=
  ⟨⟨rfl, rfl, rfl, rfl, rfl, rfl⟩,
   ⟨rfl, rfl, rfl, rfl, rfl, rfl⟩,
   ⟨rfl, rfl, rfl, rfl, rfl, rfl⟩⟩

/-- C10. Both webhook `Handle` functions return an allowed response for
every request and every operation; the per-operation handler's error is
never turned into a rejection, it is only recorded in the webhook metrics
together with the operation and the classified error type. -/
theorem webhook_handle_always_allowed (c : Cluster) (req : AdmissionRequest) :
    ((deploymentHandle c req).response.allowed = true ∧
     (deploymentHandle c req).response.message = "deployment processed" ∧
     (deploymentHandle c req).events =
       (deploymentDispatch c req).events ++
         [MetricEvent.webhookRecorded (operationString req.operation)
           (classifyResult (deploymentDispatch c req).error).fst
           (classifyResult (deploymentDispatch c req).error).snd]) ∧
    ((statefulSetHandle c req).response.allowed = true ∧
     (statefulSetHandle c req).response.message = "statefulset processed" ∧
     (statefulSetHandle c req).events =
       (statefulSetDispatch c req).events ++
         [MetricEvent.webhookRecorded (operationString req.operation)
           (classifyResult (statefulSetDispatch c req).error).fst
           (classifyResult (statefulSetDispatch c req).error).snd]) :=
  ⟨⟨rfl, rfl, rfl⟩, ⟨rfl, rfl, rfl⟩⟩

def c1Manager : VpaManager :=
  { name := "test-vpamanager"
    spec := { enabled := true, updateMode := "Auto"
              namespaceSelector := some { matchLabels := [("vpa-enabled", "true")] }
              deploymentSelector := some { matchLabels := [("vpa-enabled", "true")] }
              statefulSetSelector := none, daemonSetSelector := none
              resourcePolicy := none }
    status := { managedVPAs := 0, managedDeployments := [], managedWorkloads := []
                deploymentCount := 0, statefulSetCount := 0, daemonSetCount := 0
                lastReconcileTime := none } }

def c1Cluster : Cluster :=
  { namespaces := [{ name := "test-ns", labels := [("vpa-enabled", "true")] }]
    deployments :=
      [{ name := "deployment-1", ns := "test-ns", uid := "uid-1",
         labels := [("vpa-enabled", "true")] },
       { name := "deployment-2", ns := "test-ns", uid := "uid-2",
         labels := [("vpa-enabled", "true")] }]
    statefulSets := [], daemonSets := []
    vpaManagers := [c1Manager]
    vpas := [] }

/-- C1 fails on the code: a successful reconcile that matched two
deployments patches `managedVPAs = 2` but leaves every per-kind count at
its stale prior value 0, so `managedVPAs` differs from
`deploymentCount + statefulSetCount + daemonSetCount`.  `Reconcile` never
writes the count fields. -/
theorem reconcile_leaves_counts_stale :
    (((reconcile c1Cluster "test-vpamanager" 0).cluster.vpaManagers.find?
        (fun m => m.name == "test-vpamanager")).map
      (fun m => (m.status.managedVPAs,
        m.status.deploymentCount + m.status.statefulSetCount + m.status.daemonSetCount)))
      = some (2, 0) ∧
    (reconcile c1Cluster "test-vpamanager" 0).error = none ∧
    (reconcile c1Cluster "test-vpamanager" 0).requeueAfterMinutes = some 5 :=
  ⟨rfl, rfl, rfl⟩

def c2Manager : VpaManager :=
  { name := "nil-dep-selector"
    spec := { enabled := true, updateMode := "Auto"
              namespaceSelector := none
              deploymentSelector := none
              statefulSetSelector := none, daemonSetSelector := none
              resourcePolicy := none }
    status := { managedVPAs := 0, managedDeployments := [], managedWorkloads := []
                deploymentCount := 0, statefulSetCount := 0, daemonSetCount := 0
                lastReconcileTime := none } }

def c2Cluster : Cluster :=
  { namespaces := [{ name := "ns-x", labels := [] }]
    deployments := [], statefulSets := [], daemonSets := []
    vpaManagers := [c2Manager]
    vpas := [] }

def c2Deployment : Workload :=
  { name := "app", ns := "ns-x", uid := "u-app", labels := [] }

/-- Counterexample to C2: the Deployment admission handler's
`findMatchingVpaManager` returns a manager whose `deploymentSelector` is
nil, and `handleCreate` then creates a VPA under that manager. -/
theorem deployment_nil_selector_matches :
    c2Manager.spec.deploymentSelector = none ∧
    deploymentFindMatchingVpaManager c2Cluster c2Deployment = .ok (some c2Manager) ∧
    (deploymentHandleCreate c2Cluster c2Deployment).vpas =
      [deploymentBuildVPA c2Manager c2Deployment "app-vpa"] ∧
    (deploymentHandleCreate c2Cluster c2Deployment).events =
      [MetricEvent.vpaOpRecorded "create" "nil-dep-selector"] :=
  ⟨rfl, rfl, rfl, rfl⟩

/-- C2 amended: only the StatefulSet handler treats a nil kind-specific
selector as no match (its `findMatchingVpaManager` never returns a
manager with a nil `statefulSetSelector`); the Deployment handler's
`matchesSelector` treats a nil `deploymentSelector` as matching every
deployment. -/
theorem statefulset_nil_selector_never_matches (c : Cluster) (sts : Workload)
    (m : VpaManager)
    (h : statefulSetFindMatchingVpaManager c sts = .ok (some m)) :
    m.spec.statefulSetSelector ≠ none ∧
    (∀ lbls : StringMap, matchesSelector lbls none = true ∧
      matchesLabelSelector lbls none = false) := by
  refine ⟨?_, fun lbls => ⟨rfl, rfl⟩⟩
  unfold statefulSetFindMatchingVpaManager at h
  cases hns : findNamespace c.namespaces sts.ns with
  | none => rw [hns] at h; cases h
  | some nsObj =>
      rw [hns] at h
      have hfind := Except.ok.inj h
      have hpred := List.find?_some hfind
      intro hnil
      rw [hnil] at hpred
      simp [matchesLabelSelector] at hpred

def c2aManager : VpaManager :=
  { name := "sts-mgr"
    spec := { enabled := true, updateMode := "Auto"
              namespaceSelector := some { matchLabels := [] }
              deploymentSelector := none
              statefulSetSelector := some { matchLabels := [] }
              daemonSetSelector := none
              resourcePolicy := none }
    status := { managedVPAs := 0, managedDeployments := [], managedWorkloads := []
                deploymentCount := 0, statefulSetCount := 0, daemonSetCount := 0
                lastReconcileTime := none } }

def c2aCluster : Cluster :=
  { namespaces := [{ name := "ns-s", labels := [] }]
    deployments := [], statefulSets := [], daemonSets := []
    vpaManagers := [c2aManager]
    vpas := [] }

def c2aSts : Workload := { name := "db", ns := "ns-s", uid := "u-db", labels := [] }

/-- Witness for the amended C2 at a concrete StatefulSet match. -/
theorem statefulset_nil_selector_never_matches_witness :
    c2aManager.spec.statefulSetSelector ≠ none ∧
    matchesSelector [] none = true ∧ matchesLabelSelector [] none = false :=
  ⟨(statefulset_nil_selector_never_matches c2aCluster c2aSts c2aManager rfl).1,
   ((statefulset_nil_selector_never_matches c2aCluster c2aSts c2aManager rfl).2 []).1,
   ((statefulset_nil_selector_never_matches c2aCluster c2aSts c2aManager rfl).2 []).2⟩

def c3Manager : VpaManager :=
  { name := "nil-ns-selector"
    spec := { enabled := true, updateMode := "Auto"
              namespaceSelector := none
              deploymentSelector := none
              statefulSetSelector := some { matchLabels := [("app", "x")] }
              daemonSetSelector := none
              resourcePolicy := none }
    status := { managedVPAs := 0, managedDeployments := [], managedWorkloads := []
                deploymentCount := 0, statefulSetCount := 0, daemonSetCount := 0
                lastReconcileTime := none } }

def c3Cluster : Cluster :=
  { namespaces := [{ name := "ns-y", labels := [] }]
    deployments := [], statefulSets := [], daemonSets := []
    vpaManagers := [c3Manager]
    vpas := [] }

def c3Sts : Workload := { name := "web", ns := "ns-y", uid := "u-web", labels := [("app", "x")] }

/-- Counterexample to C3: an enabled manager with a nil
`namespaceSelector` and a matching `statefulSetSelector` is not returned
by the StatefulSet handler's `findMatchingVpaManager`, so something other
than the enabled flag or the kind-specific selector excluded it. -/
theorem statefulset_nil_namespace_selector_excludes :
    c3Manager.spec.enabled = true ∧
    c3Manager.spec.namespaceSelector = none ∧
    matchesLabelSelector c3Sts.labels c3Manager.spec.statefulSetSelector = true ∧
    statefulSetFindMatchingVpaManager c3Cluster c3Sts = .ok none ∧
    (statefulSetHandleCreate c3Cluster c3Sts).vpas = [] :=
  ⟨rfl, rfl, rfl, rfl, rfl⟩

/-- C3 amended: the Deployment handler treats a nil or empty
`namespaceSelector` as matching the namespace; the StatefulSet handler
treats an empty (non-nil) `namespaceSelector` as matching but a nil one
as not matching, so its `findMatchingVpaManager` never returns a manager
whose `namespaceSelector` is nil. -/
theorem namespace_selector_semantics (c : Cluster) (sts : Workload) (m : VpaManager)
    (h : statefulSetFindMatchingVpaManager c sts = .ok (some m)) :
    m.spec.namespaceSelector ≠ none ∧
    (∀ lbls : StringMap,
      matchesSelector lbls none = true ∧
      matchesSelector lbls (some { matchLabels := [] }) = true ∧
      matchesLabelSelector lbls (some { matchLabels := [] }) = true ∧
      matchesLabelSelector lbls none = false) := by
  refine ⟨?_, fun lbls => ⟨rfl, rfl, rfl, rfl⟩⟩
  unfold statefulSetFindMatchingVpaManager at h
  cases hns : findNamespace c.namespaces sts.ns with
  | none => rw [hns] at h; cases h
  | some nsObj =>
      rw [hns] at h
      have hpred := List.find?_some (Except.ok.inj h)
      intro hnil
      rw [hnil] at hpred
      simp [matchesLabelSelector] at hpred

def c3aManager : VpaManager :=
  { name := "sts-mgr-ns"
    spec := { enabled := true, updateMode := "Off"
              namespaceSelector := some { matchLabels := [] }
              deploymentSelector := none
              statefulSetSelector := some { matchLabels := [] }
              daemonSetSelector := none
              resourcePolicy := none }
    status := { managedVPAs := 0, managedDeployments := [], managedWorkloads := []
                deploymentCount := 0, statefulSetCount := 0, daemonSetCount := 0
                lastReconcileTime := none } }

def c3aCluster : Cluster :=
  { namespaces := [{ name := "ns-z", labels := [] }]
    deployments := [], statefulSets := [], daemonSets := []
    vpaManagers := [c3aManager]
    vpas := [] }

def c3aSts : Workload := { name := "kv", ns := "ns-z", uid := "u-kv", labels := [] }

/-- Witness for the amended C3 at a concrete StatefulSet match. -/
theorem namespace_selector_semantics_witness :
    c3aManager.spec.namespaceSelector ≠ none ∧
    matchesSelector [] none = true ∧
    matchesLabelSelector [] none = false :=
  ⟨(namespace_selector_semantics c3aCluster c3aSts c3aManager rfl).1,
   ((namespace_selector_semantics c3aCluster c3aSts c3aManager rfl).2 []).1,
   ((namespace_selector_semantics c3aCluster c3aSts c3aManager rfl).2 []).2.2.2⟩

/-- Behaviour of the sweep loop at the first terminal delete failure:
earlier orphan candidates — whether their delete succeeded or reported a
benign not-found — are counted and swept past, the failing candidate is
the last one attempted, and the loop returns the error at once. -/
theorem helperSweepFirstFailure (curKeys : List String) (del : VPA → DeleteOutcome)
    (msg : String) (v : VPA)
    (hv1 : curKeys.contains (vpaKey v) = false)
    (hv2 : del v = .failed msg) :
    ∀ (pre : List VPA),
      (∀ w ∈ pre, del w = DeleteOutcome.ok ∨ del w = DeleteOutcome.notFound) →
      ∀ (post : List VPA),
      cleanupSweep curKeys del (pre ++ v :: post) =
        { deleted := (pre.filter (fun w => !curKeys.contains (vpaKey w))).length
          error := some msg
          attempted :=
            (pre.filter (fun w => !curKeys.contains (vpaKey w))).map vpaKey ++ [vpaKey v]
          removedKeys := (pre.filter (fun w =>
            !curKeys.contains (vpaKey w) && (del w == DeleteOutcome.ok))).map vpaKey } := by
  intro pre
  induction pre with
  | nil =>
      intro _ post
      have hv1m : vpaKey v ∉ curKeys := by simpa using hv1
      simp [cleanupSweep, hv1m, hv2]
  | cons w pre ih =>
      intro hpre post
      have hw : del w = DeleteOutcome.ok ∨ del w = DeleteOutcome.notFound :=
        hpre w (List.mem_cons_self _ _)
      have hrest : ∀ u ∈ pre, del u = DeleteOutcome.ok ∨ del u = DeleteOutcome.notFound :=
        fun u hu => hpre u (List.mem_cons_of_mem _ hu)
      by_cases hcw : vpaKey w ∈ curKeys
      · simp [cleanupSweep, hcw, ih hrest post, List.filter_cons]
      · cases hdw : del w with
        | failed m2 => simp [hdw] at hw
        | ok => simp [cleanupSweep, hcw, hdw, ih hrest post, List.filter_cons]
        | notFound => simp [cleanupSweep, hcw, hdw, ih hrest post, List.filter_cons]

def c5VpaOk : VPA :=
  { name := "old1-vpa", ns := "ns1"
    labels := [("app.kubernetes.io/managed-by", "vpa-operator"),
               ("app.kubernetes.io/created-by", "m")]
    ownerReferences := []
    spec := { targetRef := { apiVersion := "apps/v1", kind := "Deployment", name := "old1" }
              updateMode := "Auto", resourcePolicy := none } }

def c5VpaBad : VPA :=
  { name := "bad-vpa", ns := "ns1"
    labels := [("app.kubernetes.io/managed-by", "vpa-operator"),
               ("app.kubernetes.io/created-by", "m")]
    ownerReferences := []
    spec := { targetRef := { apiVersion := "apps/v1", kind := "Deployment", name := "bad" }
              updateMode := "Auto", resourcePolicy := none } }

def c5VpaTail : VPA :=
  { name := "old2-vpa", ns := "ns1"
    labels := [("app.kubernetes.io/managed-by", "vpa-operator"),
               ("app.kubernetes.io/created-by", "m")]
    ownerReferences := []
    spec := { targetRef := { apiVersion := "apps/v1", kind := "Deployment", name := "old2" }
              updateMode := "Auto", resourcePolicy := none } }

def c5VpaNF : VPA :=
  { name := "nf-vpa", ns := "ns1"
    labels := [("app.kubernetes.io/managed-by", "vpa-operator"),
               ("app.kubernetes.io/created-by", "m")]
    ownerReferences := []
    spec := { targetRef := { apiVersion := "apps/v1", kind := "Deployment", name := "nf" }
              updateMode := "Auto", resourcePolicy := none } }

def c5Del : VPA → DeleteOutcome :=
  fun v =>
    if v.name == "bad-vpa" then .failed "timeout"
    else if v.name == "nf-vpa" then .notFound
    else .ok

/-- Counterexample to C5: with two orphan candidates after the one whose
delete fails terminally, the sweep attempts neither remaining candidate —
it returns at once with the deletions performed so far (here one) and the
error, instead of continuing through the rest. -/
theorem cleanup_aborts_on_terminal_error :
    (cleanupOrphanedVPAs "m" [] [c5VpaOk, c5VpaBad, c5VpaTail] c5Del).fst.attempted =
      ["ns1/old1-vpa", "ns1/bad-vpa"] ∧
    (cleanupOrphanedVPAs "m" [] [c5VpaOk, c5VpaBad, c5VpaTail] c5Del).fst.deleted = 1 ∧
    (cleanupOrphanedVPAs "m" [] [c5VpaOk, c5VpaBad, c5VpaTail] c5Del).fst.error =
      some "timeout" ∧
    "ns1/old2-vpa" ∉
      (cleanupOrphanedVPAs "m" [] [c5VpaOk, c5VpaBad, c5VpaTail] c5Del).fst.attempted :=
  ⟨rfl, rfl, rfl, by decide⟩

/-- C5 amended: when `cleanupOrphanedVPAs` hits a non-not-found delete
error it stops the sweep at once — candidates after the failing one are
not attempted — and returns that first terminal error together with the
number of orphan candidates counted before the failure; earlier orphan
deletes that succeeded or reported a benign not-found are both counted
and swept past, only the non-not-found error stops the loop. -/
theorem cleanup_first_terminal_error_aborts (mgrName : String)
    (current : List WorkloadReference) (vpas : List VPA) (del : VPA → DeleteOutcome)
    (pre : List VPA) (v : VPA) (post : List VPA) (msg : String)
    (hsplit : vpas.filter (hasManagedLabels mgrName) = pre ++ v :: post)
    (hpre : ∀ w ∈ pre, del w = DeleteOutcome.ok ∨ del w = DeleteOutcome.notFound)
    (hv1 : (current.map refKey).contains (vpaKey v) = false)
    (hv2 : del v = .failed msg) :
    (cleanupOrphanedVPAs mgrName current vpas del).fst.deleted =
      (pre.filter (fun w => !(current.map refKey).contains (vpaKey w))).length ∧
    (cleanupOrphanedVPAs mgrName current vpas del).fst.error = some msg ∧
    (cleanupOrphanedVPAs mgrName current vpas del).fst.attempted =
      (pre.filter (fun w => !(current.map refKey).contains (vpaKey w))).map vpaKey ++
        [vpaKey v] := by
  have hsweep := helperSweepFirstFailure (current.map refKey) del msg v hv1 hv2 pre hpre post
  simp only [cleanupOrphanedVPAs, hsplit, hsweep]
  exact ⟨trivial, trivial, trivial⟩

/-- Witness for the amended C5 at a concrete mixed run: one orphan delete
succeeds, the next reports a benign not-found (counted, swept past), the
third fails terminally and stops the sweep before the fourth. -/
theorem cleanup_first_terminal_error_aborts_witness :
    (cleanupOrphanedVPAs "m" [] [c5VpaOk, c5VpaNF, c5VpaBad, c5VpaTail] c5Del).fst.deleted
      = 2 ∧
    (cleanupOrphanedVPAs "m" [] [c5VpaOk, c5VpaNF, c5VpaBad, c5VpaTail] c5Del).fst.error =
      some "timeout" ∧
    (cleanupOrphanedVPAs "m" [] [c5VpaOk, c5VpaNF, c5VpaBad, c5VpaTail] c5Del).fst.attempted =
      ["ns1/old1-vpa", "ns1/nf-vpa"] ++ ["ns1/bad-vpa"] :=
  cleanup_first_terminal_error_aborts "m" [] [c5VpaOk, c5VpaNF, c5VpaBad, c5VpaTail] c5Del
    [c5VpaOk, c5VpaNF] c5VpaBad [c5VpaTail] "timeout" rfl (by decide) rfl rfl

/-- C9. The UPDATE transition matrix of both webhook handlers: with
`oldMatch` computed on the prior object and `newMatch` on the new one,
none/none does nothing; none/some creates the VPA idempotently and
records `create` under the new manager; some/none deletes the VPA and
records `delete` under the old manager; some/some rebuilds the spec from
the new match and updates (creating when the VPA is missing). -/
theorem webhook_update_transition_matrix
    (c : Cluster) (oldD newD oldS newS : Workload)
    (oldM newM oldMs newMs : Option VpaManager)
    (hNewD : deploymentFindMatchingVpaManager c newD = .ok newM)
    (hOldD : deploymentFindMatchingVpaManager c oldD = .ok oldM)
    (hNewS : statefulSetFindMatchingVpaManager c newS = .ok newMs)
    (hOldS : statefulSetFindMatchingVpaManager c oldS = .ok oldMs) :
    ((oldM = none → newM = none →
        deploymentHandleUpdate c oldD newD =
          { vpas := c.vpas, events := [], error := none }) ∧
     (∀ m, oldM = none → newM = some m →
        deploymentHandleUpdate c oldD newD =
          { vpas := if (findVPA c.vpas newD.ns (newD.name ++ "-vpa")).isSome
                    then c.vpas
                    else c.vpas ++ [deploymentBuildVPA m newD (newD.name ++ "-vpa")]
            events := [MetricEvent.vpaOpRecorded "create" m.name], error := none }) ∧
     (∀ m, oldM = some m → newM = none →
        deploymentHandleUpdate c oldD newD =
          { vpas := c.vpas.filter (fun v =>
              !(v.ns == newD.ns && v.name == newD.name ++ "-vpa"))
            events := [MetricEvent.vpaOpRecorded "delete" m.name], error := none }) ∧
     (∀ m m2, oldM = some m → newM = some m2 →
        deploymentHandleUpdate c oldD newD =
          { vpas := match findVPA c.vpas newD.ns (newD.name ++ "-vpa") with
                    | some _ => c.vpas.map (fun v =>
                        if v.ns == newD.ns && v.name == newD.name ++ "-vpa"
                        then { v with
                               spec := (deploymentBuildVPA m2 newD (newD.name ++ "-vpa")).spec }
                        else v)
                    | none => c.vpas ++ [deploymentBuildVPA m2 newD (newD.name ++ "-vpa")]
            events := [], error := none })) ∧
    ((oldMs = none → newMs = none →
        statefulSetHandleUpdate c oldS newS =
          { vpas := c.vpas, events := [], error := none }) ∧
     (∀ m, oldMs = none → newMs = some m →
        statefulSetHandleUpdate c oldS newS =
          { vpas := if (findVPA c.vpas newS.ns (newS.name ++ "-vpa")).isSome
                    then c.vpas
                    else c.vpas ++ [statefulSetBuildVPA m newS (newS.name ++ "-vpa")]
            events := [MetricEvent.vpaOpRecorded "create" m.name], error := none }) ∧
     (∀ m, oldMs = some m → newMs = none →
        statefulSetHandleUpdate c oldS newS =
          { vpas := c.vpas.filter (fun v =>
              !(v.ns == newS.ns && v.name == newS.name ++ "-vpa"))
            events := [MetricEvent.vpaOpRecorded "delete" m.name], error := none }) ∧
     (∀ m m2, oldMs = some m → newMs = some m2 →
        statefulSetHandleUpdate c oldS newS =
          { vpas := match findVPA c.vpas newS.ns (newS.name ++ "-vpa") with
                    | some _ => c.vpas.map (fun v =>
                        if v.ns == newS.ns && v.name == newS.name ++ "-vpa"
                        then { v with
                               spec := (statefulSetBuildVPA m2 newS (newS.name ++ "-vpa")).spec }
                        else v)
                    | none => c.vpas ++ [statefulSetBuildVPA m2 newS (newS.name ++ "-vpa")]
            events := [], error := none })) := by
  refine ⟨⟨?_, ?_, ?_, ?_⟩, ⟨?_, ?_, ?_, ?_⟩⟩
  · intro h1 h2; subst h1; subst h2
    simp [deploymentHandleUpdate, hNewD, hOldD]
  · intro m h1 h2; subst h1; subst h2
    simp only [deploymentHandleUpdate, hNewD, hOldD]
    cases hf : findVPA c.vpas newD.ns (newD.name ++ "-vpa") <;>
      simp [webhookCreateVPA, hf]
  · intro m h1 h2; subst h1; subst h2
    simp [deploymentHandleUpdate, hNewD, hOldD, webhookDeleteVPA]
  · intro m m2 h1 h2; subst h1; subst h2
    simp only [deploymentHandleUpdate, hNewD, hOldD]
    cases hf : findVPA c.vpas newD.ns (newD.name ++ "-vpa") <;>
      simp [webhookUpdateVPA, webhookCreateVPA, hf]
  · intro h1 h2; subst h1; subst h2
    simp [statefulSetHandleUpdate, hNewS, hOldS]
  · intro m h1 h2; subst h1; subst h2
    simp only [statefulSetHandleUpdate, hNewS, hOldS]
    cases hf : findVPA c.vpas newS.ns (newS.name ++ "-vpa") <;>
      simp [webhookCreateVPA, hf]
  · intro m h1 h2; subst h1; subst h2
    simp [statefulSetHandleUpdate, hNewS, hOldS, webhookDeleteVPA]
  · intro m m2 h1 h2; subst h1; subst h2
    simp only [statefulSetHandleUpdate, hNewS, hOldS]
    cases hf : findVPA c.vpas newS.ns (newS.name ++ "-vpa") <;>
      simp [webhookUpdateVPA, webhookCreateVPA, hf]

def c9Manager : VpaManager :=
  { name := "dep-mgr"
    spec := { enabled := true, updateMode := "Auto"
              namespaceSelector := some { matchLabels := [] }
              deploymentSelector := some { matchLabels := [("vpa-enabled", "true")] }
              statefulSetSelector := none, daemonSetSelector := none
              resourcePolicy := none }
    status := { managedVPAs := 0, managedDeployments := [], managedWorkloads := []
                deploymentCount := 0, statefulSetCount := 0, daemonSetCount := 0
                lastReconcileTime := none } }

def c9Cluster : Cluster :=
  { namespaces := [{ name := "ns-a", labels := [] }]
    deployments := [], statefulSets := [], daemonSets := []
    vpaManagers := [c9Manager]
    vpas := [] }

def c9OldD : Workload := { name := "app", ns := "ns-a", uid := "u9", labels := [] }

def c9NewD : Workload :=
  { name := "app", ns := "ns-a", uid := "u9", labels := [("vpa-enabled", "true")] }

/-- Witness for C9: an UPDATE that adds the matching label creates the VPA
and records `create` under the newly matching manager. -/
theorem webhook_update_transition_matrix_witness :
    deploymentHandleUpdate c9Cluster c9OldD c9NewD =
      { vpas := [deploymentBuildVPA c9Manager c9NewD "app-vpa"]
        events := [MetricEvent.vpaOpRecorded "create" "dep-mgr"]
        error := none } :=
  (webhook_update_transition_matrix c9Cluster c9OldD c9NewD c9OldD c9NewD
    none (some c9Manager) none none rfl rfl rfl rfl).1.2.1 c9Manager rfl rfl

/-- Through the reconciler's enumeration phase, a VPA whose key differs
from every matched workload's VPA key survives untouched, and every
accumulated workload reference is a matched one. -/
theorem helperEnumInvariant (c : Cluster) (M : VpaManager) (v : VPA)
    (h6 : v ∈ c.vpas)
    (h4 : ∀ wl ∈ matchedWorkloadRefs c M, vpaKey v ≠ refKey wl) :
    v ∈ (reconcileEnumerate c M).vpas ∧
    ∀ wl ∈ (reconcileEnumerate c M).managedWorkloads, wl ∈ matchedWorkloadRefs c M := by
  unfold reconcileEnumerate
  apply helperFoldlPreserve
    (fun s : SweepState =>
      v ∈ s.vpas ∧ ∀ wl ∈ s.managedWorkloads, wl ∈ matchedWorkloadRefs c M)
  · intro st ns hns hQ
    apply helperFoldlPreserve
      (fun s : SweepState =>
        v ∈ s.vpas ∧ ∀ wl ∈ s.managedWorkloads, wl ∈ matchedWorkloadRefs c M)
      (processKind c M ns) defaultWorkloadConfigs st ?_ hQ
    intro st2 k hk hQ2
    cases hsel : kindSelector M.spec k with
    | none => simpa [processKind, hsel] using hQ2
    | some sel =>
        simp only [processKind, hsel]
        apply helperFoldlPreserve
          (fun s : SweepState =>
            v ∈ s.vpas ∧ ∀ wl ∈ s.managedWorkloads, wl ∈ matchedWorkloadRefs c M)
          (processWorkload M (kindName k)) _ _ ?_ ?_
        · intro st3 wl hwl hQ3
          have href : ({ kind := kindName k, name := wl.name, ns := wl.ns, uid := wl.uid,
                         vpaName := wl.name ++ "-vpa" } : WorkloadReference)
              ∈ matchedWorkloadRefs c M := by
            unfold matchedWorkloadRefs
            refine List.mem_flatMap.mpr ⟨ns, hns, ?_⟩
            refine List.mem_flatMap.mpr ⟨k, hk, ?_⟩
            rw [hsel]
            exact List.mem_map_of_mem _ hwl
          constructor
          · simp only [processWorkload, ensureVPAForWorkload]
            cases hfind : findVPA st3.vpas wl.ns (wl.name ++ "-vpa") with
            | none =>
                simp only [hfind]
                exact List.mem_append_left _ hQ3.1
            | some ex =>
                simp only [hfind]
                have hcond : (v.ns == wl.ns && v.name == wl.name ++ "-vpa") = false := by
                  by_contra hcc
                  have hcc2 : (v.ns == wl.ns && v.name == wl.name ++ "-vpa") = true := by
                    simpa using hcc
                  obtain ⟨hb1, hb2⟩ := Bool.and_eq_true_iff.mp hcc2
                  have hkeq : vpaKey v =
                      refKey { kind := kindName k, name := wl.name, ns := wl.ns,
                               uid := wl.uid, vpaName := wl.name ++ "-vpa" } := by
                    unfold vpaKey refKey
                    rw [eq_of_beq hb1, eq_of_beq hb2]
                  exact h4 _ href hkeq
                have hmem := List.mem_map_of_mem
                  (fun u => if u.ns == wl.ns && u.name == wl.name ++ "-vpa"
                            then { u with spec := (buildVPAForWorkload M (kindName k) wl.name
                                     wl.ns wl.uid (wl.name ++ "-vpa")).spec }
                            else u) hQ3.1
                simpa [hcond] using hmem
          · intro wl2 hwl2
            simp only [processWorkload] at hwl2
            rcases List.mem_append.mp hwl2 with hOld | hNew
            · exact hQ3.2 wl2 hOld
            · rw [List.mem_singleton.mp hNew]
              exact href
        · exact ⟨hQ2.1, hQ2.2⟩
  · exact ⟨h6, by simp⟩

/-- C4. After a successful reconcile of an enabled manager, a VPA carrying
both ownership labels whose key is outside the set implied by the
currently matching workloads is gone from the cluster; a delete that
reports not-found is benign (no error, nothing else removed); and the
sweep never deletes a VPA lacking the manager's labels. -/
theorem reconcile_removes_orphaned_vpas (c : Cluster) (reqName : String) (now : Nat)
    (M : VpaManager) (v : VPA)
    (h1 : c.vpaManagers.find? (fun m => m.name == reqName) = some M)
    (h2 : M.spec.enabled = true)
    (h5 : hasManagedLabels M.name v = true)
    (h6 : v ∈ c.vpas)
    (h4 : ∀ wl ∈ matchedWorkloadRefs c M, vpaKey v ≠ refKey wl) :
    ((reconcile c reqName now).error = none ∧
     v ∉ (reconcile c reqName now).cluster.vpas) ∧
    (∀ (mgrName : String) (cur : List WorkloadReference) (vpas : List VPA),
       (cleanupOrphanedVPAs mgrName cur vpas (fun _ => DeleteOutcome.notFound)).fst.error
         = none ∧
       (cleanupOrphanedVPAs mgrName cur vpas (fun _ => DeleteOutcome.notFound)).snd = vpas) ∧
    (∀ (mgrName : String) (cur : List WorkloadReference) (vpas : List VPA)
       (del : VPA → DeleteOutcome) (w : VPA),
       w ∈ vpas → hasManagedLabels mgrName w = false → (vpas.map vpaKey).Nodup →
       w ∈ (cleanupOrphanedVPAs mgrName cur vpas del).snd) := by
  have herr : (reconcile c reqName now).error = none := by
    unfold reconcile; rw [h1]; simp [h2]
  have hvpas : (reconcile c reqName now).cluster.vpas =
      (cleanupOrphanedVPAs M.name (reconcileEnumerate c M).managedWorkloads
        (reconcileEnumerate c M).vpas (fun _ => DeleteOutcome.ok)).snd := by
    unfold reconcile; rw [h1]; simp [h2]
  obtain ⟨hQv, hQs⟩ := helperEnumInvariant c M v h6 h4
  refine ⟨⟨herr, ?_⟩, ?_, ?_⟩
  · rw [hvpas]
    have hcur : ((reconcileEnumerate c M).managedWorkloads.map refKey).contains
        (vpaKey v) = false := by
      by_contra hc
      have hc2 : vpaKey v ∈ (reconcileEnumerate c M).managedWorkloads.map refKey := by
        have := Bool.of_not_eq_false hc
        simpa using this
      obtain ⟨wl, hwl, hwlk⟩ := List.mem_map.mp hc2
      exact h4 wl (hQs wl hwl) hwlk.symm
    have hvfilter : v ∈ (reconcileEnumerate c M).vpas.filter (hasManagedLabels M.name) :=
      List.mem_filter.mpr ⟨hQv, h5⟩
    have hremoved := helperSweepRemovesOrphan
      ((reconcileEnumerate c M).managedWorkloads.map refKey)
      ((reconcileEnumerate c M).vpas.filter (hasManagedLabels M.name)) v hvfilter hcur
    intro hfin
    simp only [cleanupOrphanedVPAs] at hfin
    have hpred := (List.mem_filter.mp hfin).2
    simp only [Bool.not_eq_true'] at hpred
    have : vpaKey v ∉ (cleanupSweep
        ((reconcileEnumerate c M).managedWorkloads.map refKey) (fun _ => DeleteOutcome.ok)
        ((reconcileEnumerate c M).vpas.filter (hasManagedLabels M.name))).removedKeys := by
      simpa using hpred
    exact this hremoved
  · intro mgrName cur vpas
    obtain ⟨he, hr⟩ := helperSweepNotFound (cur.map refKey)
      (vpas.filter (hasManagedLabels mgrName))
    refine ⟨?_, ?_⟩
    · simpa only [cleanupOrphanedVPAs] using he
    · simp only [cleanupOrphanedVPAs, hr]
      simp
  · intro mgrName cur vpas del w hw hlab hnodup
    simp only [cleanupOrphanedVPAs]
    have hnotin : vpaKey w ∉ (cleanupSweep (cur.map refKey) del
        (vpas.filter (hasManagedLabels mgrName))).removedKeys := by
      intro hin
      obtain ⟨u, hu, hku⟩ := helperSweepRemovedSubset (cur.map refKey) del _ _ hin
      obtain ⟨humem, hulab⟩ := List.mem_filter.mp hu
      have huw : u = w := List.inj_on_of_nodup_map hnodup humem hw hku
      rw [huw] at hulab
      rw [hulab] at hlab
      cases hlab
    refine List.mem_filter.mpr ⟨hw, ?_⟩
    simpa using hnotin

def c4Manager : VpaManager :=
  { name := "mgr-orphan"
    spec := { enabled := true, updateMode := "Auto"
              namespaceSelector := none
              deploymentSelector := none
              statefulSetSelector := none, daemonSetSelector := none
              resourcePolicy := none }
    status := { managedVPAs := 1, managedDeployments := [], managedWorkloads := []
                deploymentCount := 0, statefulSetCount := 0, daemonSetCount := 0
                lastReconcileTime := none } }

def c4Orphan : VPA :=
  { name := "deleted-vpa", ns := "ns1"
    labels := [("app.kubernetes.io/managed-by", "vpa-operator"),
               ("app.kubernetes.io/created-by", "mgr-orphan")]
    ownerReferences := []
    spec := { targetRef := { apiVersion := "apps/v1", kind := "Deployment", name := "deleted" }
              updateMode := "Auto", resourcePolicy := none } }

def c4Cluster : Cluster :=
  { namespaces := [{ name := "ns1", labels := [] }]
    deployments := [], statefulSets := [], daemonSets := []
    vpaManagers := [c4Manager]
    vpas := [c4Orphan] }

/-- Witness for C4: a labelled VPA whose workload no longer exists is
removed by a successful reconcile. -/
theorem reconcile_removes_orphaned_vpas_witness :
    (reconcile c4Cluster "mgr-orphan" 3).error = none ∧
    c4Orphan ∉ (reconcile c4Cluster "mgr-orphan" 3).cluster.vpas :=
  (reconcile_removes_orphaned_vpas c4Cluster "mgr-orphan" 3 c4Manager c4Orphan
    rfl rfl rfl (by decide) (by decide)).1

end VpaOperator
